import Mathlib

/-!
Verification of the Adaptive Cruise Control (ACC) component, a shallow
embedding of `AdaptiveCruiseControl.cpp` / `AdaptiveCruiseControl.h`.

The C++ class stores three `double` telemetry fields and a log file name.
We model the numeric fields as rationals; each member function becomes a
pure function on the state (mutators return the new state).
-/

namespace ACC

/-- State of the `AdaptiveCruiseControl` class: the three telemetry fields
(`double` in the source, modelled as `ℚ`) and the configured log file name. -/
structure AdaptiveCruiseControl where
  egoSpeed : ℚ
  aheadVehicleSpeed : ℚ
  distanceToAheadVehicle : ℚ
  logFileName : String
deriving DecidableEq, Repr

/-- Constructor: `AdaptiveCruiseControl(egoSpeed, aheadVehicleSpeed, distance, logFile)`
initializes every field directly from its argument, with no validation. -/
def mkAdaptiveCruiseControl (egoSpeed aheadVehicleSpeed distance : ℚ)
    (logFile : String) : AdaptiveCruiseControl :=
  { egoSpeed := egoSpeed
    aheadVehicleSpeed := aheadVehicleSpeed
    distanceToAheadVehicle := distance
    logFileName := logFile }

/-- Accessor `getEgoSpeed()`. -/
def getEgoSpeed (c : AdaptiveCruiseControl) : ℚ := c.egoSpeed

/-- Accessor `getAheadVehicleSpeed()`. -/
def getAheadVehicleSpeed (c : AdaptiveCruiseControl) : ℚ := c.aheadVehicleSpeed

/-- Accessor `getDistance()`. -/
def getDistance (c : AdaptiveCruiseControl) : ℚ := c.distanceToAheadVehicle

/-- Accessor `getLogFileName()`. -/
def getLogFileName (c : AdaptiveCruiseControl) : String := c.logFileName

/-- `updateAheadVehicleSpeed(speed)`: stores the new speed only when
`speed >= 0.0`; a negative input leaves the state unchanged. -/
def updateAheadVehicleSpeed (c : AdaptiveCruiseControl) (speed : ℚ) :
    AdaptiveCruiseControl :=
  if speed ≥ 0 then { c with aheadVehicleSpeed := speed } else c

/-- `updateDistance(distance)`: stores the new gap only when
`distance >= 0.0`; a negative input leaves the state unchanged. -/
def updateDistance (c : AdaptiveCruiseControl) (distance : ℚ) :
    AdaptiveCruiseControl :=
  if distance ≥ 0 then { c with distanceToAheadVehicle := distance } else c

/-- `calculateSafeDistance()`: the 2-second rule,
`egoSpeed * (5.0 / 9.0)` meters. -/
def calculateSafeDistance (c : AdaptiveCruiseControl) : ℚ :=
  c.egoSpeed * (5 / 9)

/-- `adjustSpeed()`: too close (gap below safe distance) snaps to a slower
lead vehicle's speed or brakes by 5 km/h floored at 0; a gap above
1.5 × safe distance accelerates by 2 km/h capped at 120 when the lead
vehicle is faster and ego speed is below 120; otherwise no change. -/
def adjustSpeed (c : AdaptiveCruiseControl) : AdaptiveCruiseControl :=
  let safeDistance := calculateSafeDistance c
  if c.distanceToAheadVehicle < safeDistance then
    if c.aheadVehicleSpeed < c.egoSpeed then
      { c with egoSpeed := c.aheadVehicleSpeed }
    else
      { c with egoSpeed := max 0 (c.egoSpeed - 5) }
  else if c.distanceToAheadVehicle > safeDistance * (3 / 2) then
    if c.aheadVehicleSpeed > c.egoSpeed ∧ c.egoSpeed < 120 then
      { c with egoSpeed := min 120 (c.egoSpeed + 2) }
    else c
  else c

/-- The three advisory messages a status renderer can choose between. -/
inductive Advisory where
  | tooClose
  | holdSpeed
  | caution
deriving DecidableEq, Repr

/-- The advisory selection inside `displayStatus()`: too close below the safe
distance, hold speed above 1.2 × the safe distance, caution otherwise. -/
def displayStatusAdvisory (c : AdaptiveCruiseControl) : Advisory :=
  let safeDistance := calculateSafeDistance c
  if c.distanceToAheadVehicle < safeDistance then .tooClose
  else if c.distanceToAheadVehicle > safeDistance * (6 / 5) then .holdSpeed
  else .caution

/-- The advisory selection inside `saveStatusToFile()`, written there as a
separate copy of the same threshold logic. -/
def saveStatusToFileAdvisory (c : AdaptiveCruiseControl) : Advisory :=
  let safeDistance := calculateSafeDistance c
  if c.distanceToAheadVehicle < safeDistance then .tooClose
  else if c.distanceToAheadVehicle > safeDistance * (6 / 5) then .holdSpeed
  else .caution

/-- All three telemetry fields are non-negative. -/
def Nonneg (c : AdaptiveCruiseControl) : Prop :=
  0 ≤ c.egoSpeed ∧ 0 ≤ c.aheadVehicleSpeed ∧ 0 ≤ c.distanceToAheadVehicle

instance (c : AdaptiveCruiseControl) : Decidable (Nonneg c) :=
  inferInstanceAs (Decidable (_ ∧ _ ∧ _))

end ACC

namespace ACC

/-- C1 counterexample: the 120 km/h cap is not established by `adjustSpeed()`
on every state; starting from egoSpeed = 130 with a slower lead vehicle at
125 and gap 0, the too-close branch snaps egoSpeed to 125 > 120. -/
theorem C1_cap_not_established :
    ¬ (adjustSpeed (mkAdaptiveCruiseControl 130 125 0 "acc_log.txt")).egoSpeed ≤ 120 := by
  norm_num [adjustSpeed, calculateSafeDistance, mkAdaptiveCruiseControl]

/-- C1 (amended): the 120 km/h cap is preserved by `adjustSpeed()`: whenever
the pre-call egoSpeed is at most 120, the post-call egoSpeed is at most 120. -/
theorem C1_cap_preserved (c : AdaptiveCruiseControl) (h : c.egoSpeed ≤ 120) :
    (adjustSpeed c).egoSpeed ≤ 120 := by
  simp only [adjustSpeed, calculateSafeDistance]
  split_ifs with h1 h2 h3 h4
  · show c.aheadVehicleSpeed ≤ 120
    linarith
  · show max 0 (c.egoSpeed - 5) ≤ 120
    exact max_le (by norm_num) (by linarith)
  · show min 120 (c.egoSpeed + 2) ≤ 120
    exact min_le_left _ _
  · exact h
  · exact h

/-- Witness for C1 at egoSpeed 118, lead 125, gap 120. -/
theorem C1_cap_preserved_witness :
    (mkAdaptiveCruiseControl 118 125 120 "acc_log.txt").egoSpeed ≤ 120 ∧
    (adjustSpeed (mkAdaptiveCruiseControl 118 125 120 "acc_log.txt")).egoSpeed ≤ 120 :=
  ⟨by norm_num [mkAdaptiveCruiseControl],
   C1_cap_preserved (mkAdaptiveCruiseControl 118 125 120 "acc_log.txt")
     (by norm_num [mkAdaptiveCruiseControl])⟩

/-- C2: in the too-close zone (gap below egoSpeed × 5/9), `adjustSpeed()`
snaps egoSpeed to the lead speed when the lead is slower, and otherwise
brakes by 5 km/h floored at 0. -/
theorem C2_too_close_braking (c : AdaptiveCruiseControl)
    (h : c.distanceToAheadVehicle < c.egoSpeed * (5 / 9)) :
    (adjustSpeed c).egoSpeed =
      if c.aheadVehicleSpeed < c.egoSpeed then c.aheadVehicleSpeed
      else max 0 (c.egoSpeed - 5) := by
  simp only [adjustSpeed, calculateSafeDistance]
  rw [if_pos h]
  split_ifs <;> rfl

/-- Witness for C2 at egoSpeed 100, lead 80, gap 40: the gap is below the
safe distance 500/9 and the lead is slower, so egoSpeed snaps to 80. -/
theorem C2_too_close_braking_witness :
    (mkAdaptiveCruiseControl 100 80 40 "acc_log.txt").distanceToAheadVehicle <
      (mkAdaptiveCruiseControl 100 80 40 "acc_log.txt").egoSpeed * (5 / 9) ∧
    (adjustSpeed (mkAdaptiveCruiseControl 100 80 40 "acc_log.txt")).egoSpeed = 80 := by
  refine ⟨by norm_num [mkAdaptiveCruiseControl], ?_⟩
  rw [C2_too_close_braking (mkAdaptiveCruiseControl 100 80 40 "acc_log.txt")
    (by norm_num [mkAdaptiveCruiseControl])]
  norm_num [mkAdaptiveCruiseControl]

/-- C3 counterexample: for the state (ego = −18, ahead = −20, gap = −12) the
good-distance inequality gap > 1.5 × (egoSpeed × 5/9) holds (−12 > −15), yet
`adjustSpeed()` takes the too-close branch (−12 < −10) and snaps egoSpeed to
−20 instead of leaving it unchanged as the claim demands. -/
theorem C3_good_distance_counterexample :
    (mkAdaptiveCruiseControl (-18) (-20) (-12) "acc_log.txt").egoSpeed * (5 / 9) * (3 / 2) <
      (mkAdaptiveCruiseControl (-18) (-20) (-12) "acc_log.txt").distanceToAheadVehicle ∧
    ¬ ((mkAdaptiveCruiseControl (-18) (-20) (-12) "acc_log.txt").aheadVehicleSpeed >
        (mkAdaptiveCruiseControl (-18) (-20) (-12) "acc_log.txt").egoSpeed ∧
       (mkAdaptiveCruiseControl (-18) (-20) (-12) "acc_log.txt").egoSpeed < 120) ∧
    (adjustSpeed (mkAdaptiveCruiseControl (-18) (-20) (-12) "acc_log.txt")).egoSpeed ≠
      (mkAdaptiveCruiseControl (-18) (-20) (-12) "acc_log.txt").egoSpeed := by
  norm_num [adjustSpeed, calculateSafeDistance, mkAdaptiveCruiseControl]

/-- C3 (amended): for every state with non-negative egoSpeed in the
good-distance zone (gap above 1.5 × (egoSpeed × 5/9)), `adjustSpeed()` sets
egoSpeed to min(120, egoSpeed + 2) when the lead is faster and egoSpeed is
below 120, and leaves egoSpeed unchanged otherwise. -/
theorem C3_good_distance_increase (c : AdaptiveCruiseControl)
    (hego : 0 ≤ c.egoSpeed)
    (h : c.egoSpeed * (5 / 9) * (3 / 2) < c.distanceToAheadVehicle) :
    (adjustSpeed c).egoSpeed =
      if c.aheadVehicleSpeed > c.egoSpeed ∧ c.egoSpeed < 120 then
        min 120 (c.egoSpeed + 2)
      else c.egoSpeed := by
  have hsafe : 0 ≤ c.egoSpeed * (5 / 9) := by positivity
  have h1 : ¬ c.distanceToAheadVehicle < c.egoSpeed * (5 / 9) := by nlinarith
  simp only [adjustSpeed, calculateSafeDistance]
  rw [if_neg h1, if_pos h]
  split_ifs <;> rfl

/-- Witness for C3 at the state (ego = 118, ahead = 125, gap = 120) named by
the claim: the zone condition 98.33… < 120 holds and the result is exactly
120. -/
theorem C3_good_distance_increase_witness :
    (0 : ℚ) ≤ (mkAdaptiveCruiseControl 118 125 120 "acc_log.txt").egoSpeed ∧
    (mkAdaptiveCruiseControl 118 125 120 "acc_log.txt").egoSpeed * (5 / 9) * (3 / 2) <
      (mkAdaptiveCruiseControl 118 125 120 "acc_log.txt").distanceToAheadVehicle ∧
    (adjustSpeed (mkAdaptiveCruiseControl 118 125 120 "acc_log.txt")).egoSpeed = 120 := by
  refine ⟨by norm_num [mkAdaptiveCruiseControl], by norm_num [mkAdaptiveCruiseControl], ?_⟩
  rw [C3_good_distance_increase (mkAdaptiveCruiseControl 118 125 120 "acc_log.txt")
    (by norm_num [mkAdaptiveCruiseControl]) (by norm_num [mkAdaptiveCruiseControl])]
  norm_num [mkAdaptiveCruiseControl]

/-- C4: in the comfort zone (safe distance ≤ gap ≤ 1.5 × safe distance, both
boundaries included) `adjustSpeed()` is the identity on the whole state, so
any number of repeated calls leaves egoSpeed unchanged. -/
theorem C4_comfort_zone_identity (c : AdaptiveCruiseControl)
    (h1 : c.egoSpeed * (5 / 9) ≤ c.distanceToAheadVehicle)
    (h2 : c.distanceToAheadVehicle ≤ c.egoSpeed * (5 / 9) * (3 / 2)) :
    adjustSpeed c = c ∧ ∀ n : ℕ, (adjustSpeed^[n] c).egoSpeed = c.egoSpeed := by
  have hfix : adjustSpeed c = c := by
    simp only [adjustSpeed, calculateSafeDistance]
    rw [if_neg (not_lt.mpr h1), if_neg (not_lt.mpr h2)]
  exact ⟨hfix, fun n => by rw [Function.iterate_fixed hfix]⟩

/-- Witness for C4 at egoSpeed 90, lead 80, gap 55: the safe distance is 50,
1.5 × safe is 75, and ten iterated calls leave egoSpeed at 90. -/
theorem C4_comfort_zone_identity_witness :
    (mkAdaptiveCruiseControl 90 80 55 "acc_log.txt").egoSpeed * (5 / 9) ≤
      (mkAdaptiveCruiseControl 90 80 55 "acc_log.txt").distanceToAheadVehicle ∧
    (mkAdaptiveCruiseControl 90 80 55 "acc_log.txt").distanceToAheadVehicle ≤
      (mkAdaptiveCruiseControl 90 80 55 "acc_log.txt").egoSpeed * (5 / 9) * (3 / 2) ∧
    (adjustSpeed^[10] (mkAdaptiveCruiseControl 90 80 55 "acc_log.txt")).egoSpeed = 90 := by
  refine ⟨by norm_num [mkAdaptiveCruiseControl], by norm_num [mkAdaptiveCruiseControl], ?_⟩
  rw [(C4_comfort_zone_identity (mkAdaptiveCruiseControl 90 80 55 "acc_log.txt")
    (by norm_num [mkAdaptiveCruiseControl]) (by norm_num [mkAdaptiveCruiseControl])).2 10]
  rfl

/-- C5: `calculateSafeDistance()` returns exactly egoSpeed × 5/9, depends on
egoSpeed only (two states with the same egoSpeed get the same result), and
zero speed yields zero safe distance. Being a plain function of the state it
modifies nothing. -/
theorem C5_safe_distance_pure (c d : AdaptiveCruiseControl)
    (h : d.egoSpeed = c.egoSpeed) :
    calculateSafeDistance c = c.egoSpeed * (5 / 9) ∧
    calculateSafeDistance d = calculateSafeDistance c ∧
    (c.egoSpeed = 0 → calculateSafeDistance c = 0) := by
  refine ⟨rfl, ?_, fun h0 => ?_⟩
  · simp [calculateSafeDistance, h]
  · simp [calculateSafeDistance, h0]

/-- Witness for C5: two states sharing egoSpeed 60 but differing in every
other field both yield safe distance 100/3 ≈ 33.33. -/
theorem C5_safe_distance_pure_witness :
    (mkAdaptiveCruiseControl 60 10 5 "other.txt").egoSpeed =
      (mkAdaptiveCruiseControl 60 99 7 "acc_log.txt").egoSpeed ∧
    calculateSafeDistance (mkAdaptiveCruiseControl 60 10 5 "other.txt") =
      calculateSafeDistance (mkAdaptiveCruiseControl 60 99 7 "acc_log.txt") ∧
    calculateSafeDistance (mkAdaptiveCruiseControl 60 99 7 "acc_log.txt") = 100 / 3 := by
  refine ⟨rfl, (C5_safe_distance_pure (mkAdaptiveCruiseControl 60 99 7 "acc_log.txt")
    (mkAdaptiveCruiseControl 60 10 5 "other.txt") rfl).2.1, ?_⟩
  norm_num [calculateSafeDistance, mkAdaptiveCruiseControl]

/-- C6: `updateAheadVehicleSpeed(v)` and `updateDistance(v)` store `v` when
`v ≥ 0` and are complete no-ops when `v < 0`; in both cases they return
normally, signalling no error. -/
theorem C6_update_validation (c : AdaptiveCruiseControl) (v : ℚ) :
    (0 ≤ v →
      updateAheadVehicleSpeed c v = { c with aheadVehicleSpeed := v } ∧
      updateDistance c v = { c with distanceToAheadVehicle := v }) ∧
    (v < 0 →
      updateAheadVehicleSpeed c v = c ∧ updateDistance c v = c) := by
  constructor
  · intro h
    constructor <;> simp [updateAheadVehicleSpeed, updateDistance, h]
  · intro h
    have h' : ¬ v ≥ 0 := not_le.mpr h
    constructor <;> simp [updateAheadVehicleSpeed, updateDistance, h']

/-- Witness for C6: a negative input −3 leaves the state untouched, while a
non-negative input 7 replaces the corresponding field. -/
theorem C6_update_validation_witness :
    (updateAheadVehicleSpeed (mkAdaptiveCruiseControl 50 60 30 "acc_log.txt") (-3) =
       mkAdaptiveCruiseControl 50 60 30 "acc_log.txt" ∧
     updateDistance (mkAdaptiveCruiseControl 50 60 30 "acc_log.txt") (-3) =
       mkAdaptiveCruiseControl 50 60 30 "acc_log.txt") ∧
    updateDistance (mkAdaptiveCruiseControl 50 60 30 "acc_log.txt") 7 =
      mkAdaptiveCruiseControl 50 60 7 "acc_log.txt" := by
  refine ⟨(C6_update_validation (mkAdaptiveCruiseControl 50 60 30 "acc_log.txt") (-3)).2
    (by norm_num), ?_⟩
  rw [((C6_update_validation (mkAdaptiveCruiseControl 50 60 30 "acc_log.txt") 7).1
    (by norm_num)).2]
  rfl

/-- C7: every operation preserves non-negativity of all three telemetry
fields, and in particular `adjustSpeed()` never drives egoSpeed below 0. -/
theorem C7_nonneg_preserved (c : AdaptiveCruiseControl) (v : ℚ) (h : Nonneg c) :
    Nonneg (updateAheadVehicleSpeed c v) ∧ Nonneg (updateDistance c v) ∧
    Nonneg (adjustSpeed c) := by
  obtain ⟨he, ha, hd⟩ := h
  refine ⟨?_, ?_, ?_⟩
  · simp only [updateAheadVehicleSpeed, Nonneg]
    split_ifs with hv
    · exact ⟨he, hv, hd⟩
    · exact ⟨he, ha, hd⟩
  · simp only [updateDistance, Nonneg]
    split_ifs with hv
    · exact ⟨he, ha, hv⟩
    · exact ⟨he, ha, hd⟩
  · simp only [adjustSpeed, calculateSafeDistance, Nonneg]
    split_ifs with h1 h2 h3 h4
    · exact ⟨ha, ha, hd⟩
    · exact ⟨le_max_left 0 _, ha, hd⟩
    · exact ⟨le_min (by norm_num) (by linarith), ha, hd⟩
    · exact ⟨he, ha, hd⟩
    · exact ⟨he, ha, hd⟩

/-- Witness for C7 at a non-negative state (10, 20, 30) with a negative
update argument −1: adjustment keeps every field non-negative. -/
theorem C7_nonneg_preserved_witness :
    Nonneg (mkAdaptiveCruiseControl 10 20 30 "acc_log.txt") ∧
    Nonneg (updateAheadVehicleSpeed (mkAdaptiveCruiseControl 10 20 30 "acc_log.txt") (-1)) ∧
    Nonneg (adjustSpeed (mkAdaptiveCruiseControl 10 20 30 "acc_log.txt")) := by
  have h0 : Nonneg (mkAdaptiveCruiseControl 10 20 30 "acc_log.txt") := by
    refine ⟨?_, ?_, ?_⟩ <;> norm_num [mkAdaptiveCruiseControl]
  have h := C7_nonneg_preserved (mkAdaptiveCruiseControl 10 20 30 "acc_log.txt") (-1) h0
  exact ⟨h0, h.1, h.2.2⟩

/-- C8: `adjustSpeed()` mutates only egoSpeed: the lead speed, the gap and
the configured log file name are exactly their pre-call values. As a pure
state-to-state function it performs no logging or I/O. -/
theorem C8_frame_only_egoSpeed (c : AdaptiveCruiseControl) :
    (adjustSpeed c).aheadVehicleSpeed = c.aheadVehicleSpeed ∧
    (adjustSpeed c).distanceToAheadVehicle = c.distanceToAheadVehicle ∧
    (adjustSpeed c).logFileName = c.logFileName := by
  simp only [adjustSpeed, calculateSafeDistance]
  split_ifs <;> exact ⟨rfl, rfl, rfl⟩

/-- C9: the advisory classification picks the too-close advisory when
gap < egoSpeed × 5/9, else the hold-speed advisory when
gap > 1.2 × (egoSpeed × 5/9), else the caution advisory — thresholds
distinct from the 1.5× adjustment policy — and the console renderer and the
log writer agree on every state. -/
theorem C9_advisory_classification (c : AdaptiveCruiseControl) :
    (c.distanceToAheadVehicle < c.egoSpeed * (5 / 9) →
      displayStatusAdvisory c = Advisory.tooClose) ∧
    (¬ c.distanceToAheadVehicle < c.egoSpeed * (5 / 9) →
      c.egoSpeed * (5 / 9) * (6 / 5) < c.distanceToAheadVehicle →
      displayStatusAdvisory c = Advisory.holdSpeed) ∧
    (¬ c.distanceToAheadVehicle < c.egoSpeed * (5 / 9) →
      ¬ c.egoSpeed * (5 / 9) * (6 / 5) < c.distanceToAheadVehicle →
      displayStatusAdvisory c = Advisory.caution) ∧
    saveStatusToFileAdvisory c = displayStatusAdvisory c := by
  refine ⟨fun h1 => ?_, fun h1 h2 => ?_, fun h1 h2 => ?_, rfl⟩ <;>
    simp only [displayStatusAdvisory, calculateSafeDistance]
  · rw [if_pos h1]
  · rw [if_neg h1, if_pos h2]
  · rw [if_neg h1, if_neg h2]

/-- Witness for C9 at egoSpeed 90, gap 55: the gap sits between the safe
distance 50 and 1.2 × 50 = 60, so both renderers advise caution. -/
theorem C9_advisory_classification_witness :
    displayStatusAdvisory (mkAdaptiveCruiseControl 90 80 55 "acc_log.txt") =
      Advisory.caution ∧
    saveStatusToFileAdvisory (mkAdaptiveCruiseControl 90 80 55 "acc_log.txt") =
      Advisory.caution := by
  have h := C9_advisory_classification (mkAdaptiveCruiseControl 90 80 55 "acc_log.txt")
  have hc := h.2.2.1 (by norm_num [mkAdaptiveCruiseControl])
    (by norm_num [mkAdaptiveCruiseControl])
  exact ⟨hc, h.2.2.2.trans hc⟩

/-- C10: the constructor stores all three telemetry arguments (and the log
file name) verbatim, with no validation, for arbitrary rational inputs,
negative values included. -/
theorem C10_constructor_no_validation (e a d : ℚ) (f : String) :
    getEgoSpeed (mkAdaptiveCruiseControl e a d f) = e ∧
    getAheadVehicleSpeed (mkAdaptiveCruiseControl e a d f) = a ∧
    getDistance (mkAdaptiveCruiseControl e a d f) = d ∧
    getLogFileName (mkAdaptiveCruiseControl e a d f) = f :=
  ⟨rfl, rfl, rfl, rfl⟩

end ACC
